import Mathlib

/-
Verification of the BibleLM backend core (src/backend/app) against its
specification.  The Python source is shallowly embedded: the documents table
is a list of rows, collaborator calls (downloader, extractor, embedder,
LLM, websocket transport) are oracle parameters recording their outcomes,
and each endpoint or task body is translated branch for branch.
-/

namespace BibleLM

/-- Lifecycle status of a document (constants.DocumentStatus). -/
inductive DocumentStatus
  | PENDING
  | DOWNLOADING
  | PROCESSING
  | COMPLETED
  | FAILED
deriving DecidableEq, Repr

/-- Media kind of a document (constants.DocumentType). -/
inductive DocumentType
  | PDF
  | DOCX
  | EPUB
  | TXT
  | MP3
  | WAV
  | MP4
  | MOV
  | PNG
  | JPG
  | URL
  | UNKNOWN
deriving DecidableEq, Repr

/-- A row of the documents table (models.Document).  Timestamps are not
modelled; `id` is the primary key. -/
structure Document where
  id : Nat
  filename : String
  original_path : String
  processed_text_path : Option String
  document_type : DocumentType
  status : DocumentStatus
  error_message : Option String
deriving DecidableEq, Repr

/-- crud.get_document: the first row with the given id
(`select(Document).filter(Document.id == doc_id)`, `scalar_one_or_none`). -/
def get_document : List Document → Nat → Option Document
  | [], _ => none
  | d :: t, docId => if d.id = docId then some d else get_document t docId

/-- Overwrite the row with the given id (the ORM mutating a fetched row and
committing). -/
def updateRow (db : List Document) (docId : Nat) (f : Document → Document) :
    List Document :=
  db.map fun d => if d.id = docId then f d else d

/-- A status write as performed by crud.update_document_status: the new
status together with the stored error message. -/
abbrev StatusWrite := DocumentStatus × Option String

/-- One pipeline execution context: the documents table plus the ordered log
of status writes made through crud.update_document_status. -/
structure Exec where
  db : List Document
  writes : List StatusWrite
deriving DecidableEq, Repr

/-- Set the status and error-message columns of a row. -/
def setStatusErr (st : DocumentStatus) (err : Option String) (d : Document) : Document :=
  { d with status := st, error_message := err }

/-- crud.update_document_status: fetches the row, writes the new status and
error message, clearing the error message when the new status is COMPLETED.
It publishes no event (broadcasting happens only in main.py). -/
def update_document_status (ex : Exec) (docId : Nat) (st : DocumentStatus)
    (err : Option String) : Exec :=
  match get_document ex.db docId with
  | none => ex
  | some _ =>
    { db := updateRow ex.db docId
        (setStatusErr st (if st = DocumentStatus.COMPLETED then none else err)),
      writes := ex.writes ++ [(st, if st = DocumentStatus.COMPLETED then none else err)] }

/-! ### Chunking (spec §4.3) -/

/-- The chunking recursion with an explicit fuel bound; the fuel (the text
length on the intended call) dominates the number of windows, so it never
runs out there. -/
def chunkTextAux (s o : Nat) : Nat → List Char → List (List Char)
  | 0, _ => []
  | Nat.succ fuel, t =>
    if t.length = 0 then []
    else if t.length ≤ s ∨ s ≤ o then [t]
    else t.take s :: chunkTextAux s o fuel (t.drop (s - o))

/-- Modelled from the spec: the Chunker of §4.3.  rag_handler delegates
chunking to langchain's RecursiveCharacterTextSplitter, which is not part of
this repository; per the spec the chunker produces overlapping fixed-size
segments: windows of `s` characters advancing by `s - o`, so consecutive
chunks share `o` characters.  Text no longer than one chunk yields exactly
one chunk; empty text yields zero chunks.  The `s ≤ o` guard only ensures
totality and lies outside the spec's parameter domain (`0 < o < s`). -/
def chunkText (s o : Nat) (t : List Char) : List (List Char) :=
  chunkTextAux s o t.length t

/-- Concatenate a list of chunks after stripping the first `o` characters
(the overlap carried over from the previous chunk) from each. -/
def stripJoin (o : Nat) (l : List (List Char)) : List Char :=
  (l.map (List.drop o)).flatten

/-- Reassemble a chunk sequence: the first chunk whole, every later chunk
with its leading overlap stripped. -/
def reassemble (o : Nat) : List (List Char) → List Char
  | [] => []
  | c :: rest => c ++ stripJoin o rest

lemma stripJoin_nil (o : Nat) : stripJoin o [] = [] := rfl

lemma stripJoin_cons (o : Nat) (c : List Char) (l : List (List Char)) :
    stripJoin o (c :: l) = c.drop o ++ stripJoin o l := by
  simp [stripJoin]

/-- Stripping the overlap from every chunk and concatenating recovers the
text with its first `o` characters removed, for any sufficient fuel. -/
lemma stripJoin_chunkTextAux (s o : Nat) (ho : o < s) :
    ∀ (fuel : Nat) (t : List Char), t.length ≤ fuel →
      stripJoin o (chunkTextAux s o fuel t) = t.drop o := by
  intro fuel
  induction fuel with
  | zero =>
    intro t ht
    have : t = [] := List.length_eq_zero.mp (Nat.le_zero.mp ht)
    subst this
    simp [chunkTextAux, stripJoin]
  | succ n ih =>
    intro t ht
    rw [chunkTextAux]
    by_cases h0 : t.length = 0
    · have : t = [] := List.length_eq_zero.mp h0
      subst this
      simp [stripJoin]
    · simp only [h0, if_false]
      by_cases h1 : t.length ≤ s ∨ s ≤ o
      · simp only [h1, if_true]
        simp [stripJoin]
      · simp only [h1, if_false]
        rw [stripJoin_cons]
        have hso : 0 < s - o := by omega
        have hlen : (t.drop (s - o)).length ≤ n := by
          simp only [List.length_drop]
          omega
        rw [ih (t.drop (s - o)) hlen]
        rw [List.drop_drop]
        have hsum : s - o + o = s := by omega
        rw [hsum]
        rw [List.drop_take]
        conv_rhs => rw [← List.take_append_drop (s - o) (t.drop o)]
        congr 1
        rw [List.drop_drop]
        congr 1
        omega

/-- Reassembling the chunks recovers the text, for any sufficient fuel. -/
lemma reassemble_chunkTextAux (s o : Nat) (ho : o < s) :
    ∀ (fuel : Nat) (t : List Char), t.length ≤ fuel →
      reassemble o (chunkTextAux s o fuel t) = t := by
  intro fuel
  cases fuel with
  | zero =>
    intro t ht
    have : t = [] := List.length_eq_zero.mp (Nat.le_zero.mp ht)
    subst this
    simp [chunkTextAux, reassemble]
  | succ n =>
    intro t ht
    rw [chunkTextAux]
    by_cases h0 : t.length = 0
    · have : t = [] := List.length_eq_zero.mp h0
      subst this
      simp [reassemble]
    · simp only [h0, if_false]
      by_cases h1 : t.length ≤ s ∨ s ≤ o
      · simp only [h1, if_true]
        simp [reassemble, stripJoin]
      · simp only [h1, if_false]
        show t.take s ++ stripJoin o (chunkTextAux s o n (t.drop (s - o))) = t
        have hlen : (t.drop (s - o)).length ≤ n := by
          simp only [List.length_drop]
          omega
        rw [stripJoin_chunkTextAux s o ho n _ hlen]
        rw [List.drop_drop]
        have hsum : s - o + o = s := by omega
        rw [hsum, List.take_append_drop]

/-- C7: for every text and every valid size/overlap pair (both positive,
overlap strictly below size) chunking is deterministic — it is a pure
function of the text and the parameters — and reassembling the chunk
sequence, stripping the leading overlap of every chunk after the first,
reconstructs the original text exactly: no silent text loss. -/
theorem C7_chunking_deterministic_and_lossless (s o : Nat) (t t' : List Char)
    (hpos : 0 < o) (ho : o < s) (heq : t = t') :
    chunkText s o t = chunkText s o t' ∧
      reassemble o (chunkText s o t) = t := by
  subst heq
  exact ⟨rfl, reassemble_chunkTextAux s o ho t.length t (le_refl _)⟩

/-- Witness for C7 at a concrete input: size 3, overlap 1, text "abcdef". -/
theorem C7_chunking_witness :
    chunkText 3 1 "abcdef".toList = chunkText 3 1 "abcdef".toList ∧
      reassemble 1 (chunkText 3 1 "abcdef".toList) = "abcdef".toList :=
  C7_chunking_deterministic_and_lossless 3 1 "abcdef".toList "abcdef".toList
    (by decide) (by decide) rfl

/-! ### Ingestion pipeline (tasks.process_document_task,
main.process_document_task_with_ws) -/

/-- The message of the NameError raised by tasks.process_document_task, as
`str(e)` renders it in the wrapper's except branch; `\x27` is the
apostrophe. -/
def nameErrorMsg : String := "name \x27crud\x27 is not defined"

/-- tasks.process_document_task as it actually executes.  tasks.py never
imports crud, yet the function's first statement is
`doc = await crud.get_document(db, doc_id)` (tasks.py line 26), so every
call raises NameError before the first status write.  The rest of the body
— the PROCESSING and DOWNLOADING writes, the download/extraction/embedding
stage calls with their stage-specific FAILED messages, and the COMPLETED
write — is unreachable dead code.  The raised exception is the error value;
the table is untouched and nothing is written or published here. -/
def process_document_task (ex : Exec) (docId : Nat) : Except String Exec :=
  Except.error nameErrorMsg

/-- main.process_document_task_with_ws: broadcasts a PROCESSING event, runs
the task, and on success fetches the row again and broadcasts its final
status and error message; when the task raises — which, by the NameError
above, is every run — the except branch writes FAILED with `str(e)` through
crud.update_document_status (main.py does import crud) and broadcasts a
FAILED event carrying that same message.  Returns the execution context and
the sequence of events published through broadcast_status for this run. -/
def process_document_task_with_ws (db : List Document) (docId : Nat) :
    Exec × List StatusWrite :=
  match process_document_task { db := db, writes := [] } docId with
  | Except.ok ex =>
    (ex,
     (DocumentStatus.PROCESSING, none) ::
       (match get_document ex.db docId with
        | some doc => [(doc.status, doc.error_message)]
        | none => []))
  | Except.error e =>
    (update_document_status { db := db, writes := [] } docId DocumentStatus.FAILED (some e),
     [(DocumentStatus.PROCESSING, none), (DocumentStatus.FAILED, some e)])

lemma get_document_updateRow_self (db : List Document) (docId : Nat)
    (f : Document → Document) (hf : ∀ d, (f d).id = d.id) :
    get_document (updateRow db docId f) docId = (get_document db docId).map f := by
  induction db with
  | nil => rfl
  | cons d t ih =>
    have hcons : updateRow (d :: t) docId f
        = (if d.id = docId then f d else d) :: updateRow t docId f := rfl
    rw [hcons]
    by_cases h : d.id = docId
    · simp [get_document, h, hf d]
    · simp [get_document, h, ih]

lemma update_document_status_found (ex : Exec) (docId : Nat) (st : DocumentStatus)
    (err : Option String) (doc : Document) (h : get_document ex.db docId = some doc) :
    update_document_status ex docId st err =
      { db := updateRow ex.db docId
          (setStatusErr st (if st = DocumentStatus.COMPLETED then none else err)),
        writes := ex.writes ++ [(st, if st = DocumentStatus.COMPLETED then none else err)] } := by
  simp [update_document_status, h]

lemma update_document_status_writes (ex : Exec) (docId : Nat) (st : DocumentStatus)
    (err : Option String) (doc : Document) (h : get_document ex.db docId = some doc) :
    (update_document_status ex docId st err).writes
      = ex.writes ++ [(st, if st = DocumentStatus.COMPLETED then none else err)] := by
  rw [update_document_status_found ex docId st err doc h]

/-- A registered TXT source in the initial state; with every collaborator
available its run should end COMPLETED. -/
def C3exDoc : Document :=
  { id := 1, filename := "a.txt", original_path := "/data/uploads/a.txt",
    processed_text_path := none, document_type := DocumentType.TXT,
    status := DocumentStatus.PENDING, error_message := none }

/-- C3: evaluation of the run at the failing input.  The claim matches the
intent — tasks.py itself constructs the stage-specific FAILED messages and
the COMPLETED write — but the missing crud import makes all of that
unreachable: the run on a healthy TXT source writes exactly one transition,
FAILED carrying the NameError message, never COMPLETED and never a
stage-specific error. -/
theorem C3_name_error_preempts_pipeline :
    (process_document_task_with_ws [C3exDoc] 1).1.writes
        = [(DocumentStatus.FAILED, some nameErrorMsg)] ∧
      get_document (process_document_task_with_ws [C3exDoc] 1).1.db 1
        = some (setStatusErr DocumentStatus.FAILED (some nameErrorMsg) C3exDoc) ∧
      nameErrorMsg = "name \x27crud\x27 is not defined" := by
  refine ⟨by decide, by decide, rfl⟩

/-! ### State-machine trajectories (spec §4.1) -/

/-- Terminal lifecycle states. -/
def isTerminalStatus : DocumentStatus → Bool
  | DocumentStatus.COMPLETED => true
  | DocumentStatus.FAILED => true
  | _ => false

/-- A list of statuses is a path of the given transition relation. -/
def isChain (edge : DocumentStatus → DocumentStatus → Bool) : List DocumentStatus → Bool
  | a :: b :: t => edge a b && isChain edge (b :: t)
  | _ => true

/-- The transition relation of the spec's §4.1 state machine: DOWNLOADING
(acquiring) is entered only from PENDING and only for a remote origin; a
local origin goes PENDING → PROCESSING directly; any non-terminal state may
transition to FAILED on an unexpected exception. -/
def specTransition (remote : Bool) (a b : DocumentStatus) : Bool :=
  match a, b with
  | DocumentStatus.PENDING, DocumentStatus.DOWNLOADING => remote
  | DocumentStatus.PENDING, DocumentStatus.PROCESSING => !remote
  | DocumentStatus.DOWNLOADING, DocumentStatus.PROCESSING => true
  | DocumentStatus.PROCESSING, DocumentStatus.COMPLETED => true
  | DocumentStatus.PENDING, DocumentStatus.FAILED => true
  | DocumentStatus.DOWNLOADING, DocumentStatus.FAILED => true
  | DocumentStatus.PROCESSING, DocumentStatus.FAILED => true
  | _, _ => false

/-- A remote (URL) source in the initial state. -/
def C4exDoc : Document :=
  { id := 1, filename := "http://example.com/a.pdf",
    original_path := "http://example.com/a.pdf", processed_text_path := none,
    document_type := DocumentType.URL, status := DocumentStatus.PENDING,
    error_message := none }

/-- C4: for every existing source registered PENDING, the status sequence
written during an ingestion run, prefixed with the initial PENDING, is a
path through the §4.1 state machine ending in exactly one terminal state,
which is its last element.  It holds degenerately: every run raises
NameError before the task body writes anything (see C3), so the trajectory
is PENDING → FAILED — the machine's "any non-terminal state may transition
to failed on an unexpected exception" edge — for remote and local origins
alike.  The acquiring and processing states are never entered, so the
constraint that acquiring is entered only from pending is never violated. -/
theorem C4_trajectory_is_spec_path (db : List Document) (docId : Nat)
    (doc : Document) (h : get_document db docId = some doc)
    (hpend : doc.status = DocumentStatus.PENDING) :
    DocumentStatus.PENDING ::
        (process_document_task_with_ws db docId).1.writes.map Prod.fst
        = [DocumentStatus.PENDING, DocumentStatus.FAILED] ∧
      (∀ remote : Bool,
        isChain (specTransition remote)
          (DocumentStatus.PENDING ::
            (process_document_task_with_ws db docId).1.writes.map Prod.fst) = true) ∧
      ((DocumentStatus.PENDING ::
          (process_document_task_with_ws db docId).1.writes.map Prod.fst).filter
            isTerminalStatus).length = 1 ∧
      (DocumentStatus.PENDING ::
          (process_document_task_with_ws db docId).1.writes.map Prod.fst).getLast?
        = some DocumentStatus.FAILED ∧
      isTerminalStatus DocumentStatus.FAILED = true := by
  have hw := update_document_status_writes ⟨db, []⟩ docId DocumentStatus.FAILED
    (some nameErrorMsg) doc h
  refine ⟨?_, ?_, ?_, ?_, rfl⟩ <;>
    simp [process_document_task_with_ws, process_document_task, hw, isChain,
      specTransition, isTerminalStatus]

/-- Witness for C4 at a concrete input: a remote source. -/
theorem C4_trajectory_witness :
    DocumentStatus.PENDING ::
        (process_document_task_with_ws [C4exDoc] 1).1.writes.map Prod.fst
        = [DocumentStatus.PENDING, DocumentStatus.FAILED] ∧
      (∀ remote : Bool,
        isChain (specTransition remote)
          (DocumentStatus.PENDING ::
            (process_document_task_with_ws [C4exDoc] 1).1.writes.map Prod.fst) = true) ∧
      ((DocumentStatus.PENDING ::
          (process_document_task_with_ws [C4exDoc] 1).1.writes.map Prod.fst).filter
            isTerminalStatus).length = 1 ∧
      (DocumentStatus.PENDING ::
          (process_document_task_with_ws [C4exDoc] 1).1.writes.map Prod.fst).getLast?
        = some DocumentStatus.FAILED ∧
      isTerminalStatus DocumentStatus.FAILED = true :=
  C4_trajectory_is_spec_path [C4exDoc] 1 C4exDoc (by decide) (by decide)

/-- A remote (URL) source for the C5 witness. -/
def C5exDoc : Document :=
  { id := 2, filename := "http://example.com/b.pdf",
    original_path := "http://example.com/b.pdf", processed_text_path := none,
    document_type := DocumentType.URL, status := DocumentStatus.PENDING,
    error_message := none }

/-- C5: every status transition written during a pipeline run has a
corresponding published event.  A run on an existing source writes exactly
one transition — the wrapper's FAILED carrying the NameError message, with
the error message set by crud.update_document_status — and publishes a
PROCESSING event followed by a FAILED event with that same message, so
every write, including the transition into FAILED, is published to the
Status Broadcaster for that source id.  (update_document_status itself
publishes nothing, but during a real run it is only ever reached from the
wrapper's except branch, which publishes immediately afterwards; the task
body's unpublished intermediate writes are unreachable — see C3.) -/
theorem C5_every_write_has_event (db : List Document) (docId : Nat)
    (doc : Document) (h : get_document db docId = some doc) :
    (process_document_task_with_ws db docId).1.writes
        = [(DocumentStatus.FAILED, some nameErrorMsg)] ∧
      (process_document_task_with_ws db docId).2
        = [(DocumentStatus.PROCESSING, none),
           (DocumentStatus.FAILED, some nameErrorMsg)] ∧
      ∀ w ∈ (process_document_task_with_ws db docId).1.writes,
        w ∈ (process_document_task_with_ws db docId).2 := by
  have hw := update_document_status_writes ⟨db, []⟩ docId DocumentStatus.FAILED
    (some nameErrorMsg) doc h
  refine ⟨?_, ?_, ?_⟩ <;>
    simp [process_document_task_with_ws, process_document_task, hw]

/-- Witness for C5 at a concrete input. -/
theorem C5_every_write_witness :
    (process_document_task_with_ws [C5exDoc] 2).1.writes
        = [(DocumentStatus.FAILED, some nameErrorMsg)] ∧
      (process_document_task_with_ws [C5exDoc] 2).2
        = [(DocumentStatus.PROCESSING, none),
           (DocumentStatus.FAILED, some nameErrorMsg)] ∧
      ∀ w ∈ (process_document_task_with_ws [C5exDoc] 2).1.writes,
        w ∈ (process_document_task_with_ws [C5exDoc] 2).2 :=
  C5_every_write_has_event [C5exDoc] 2 C5exDoc (by decide)


/-! ### Status Broadcaster (main.broadcast_status,
main.remove_websocket_connection) -/

/-- Outcome of `websocket.send_json` for one subscriber: delivered, raised
WebSocketDisconnect, or raised some other exception. -/
inductive SendOutcome
  | ok
  | disconnected
  | failed
deriving DecidableEq, Repr

/-- One websocket subscriber, identified by `sid`; `outcome` is what its
transport does with the next message sent to it. -/
structure Sub where
  sid : Nat
  outcome : SendOutcome
deriving DecidableEq, Repr

/-- The registry of open status connections (main.websocket_connections, a
dict from doc id to a list of websockets), as a total map; an id with no
entry maps to the empty list. -/
abbrev Registry := Nat → List Sub

/-- main.remove_websocket_connection: remove one websocket from a source's
list (`list.remove` drops the first occurrence; absence is a caught
no-op). -/
def remove_websocket_connection (reg : Registry) (docId : Nat) (ws : Sub) : Registry :=
  fun k => if k = docId then (reg docId).erase ws else reg k

/-- The loop of main.broadcast_status: iterate over a snapshot of the
current list; record a delivery when the send succeeds, prune the
subscriber on WebSocketDisconnect, log and continue on any other exception.
Every exception is caught, so no failure propagates to the caller. -/
def broadcastLoop (docId : Nat) : Registry → List Sub → List Sub → Registry × List Sub
  | reg, [], delivered => (reg, delivered)
  | reg, ws :: rest, delivered =>
    match ws.outcome with
    | SendOutcome.ok => broadcastLoop docId reg rest (delivered ++ [ws])
    | SendOutcome.disconnected =>
        broadcastLoop docId (remove_websocket_connection reg docId ws) rest delivered
    | SendOutcome.failed => broadcastLoop docId reg rest delivered

/-- main.broadcast_status for one status message: does nothing when the
source has no subscribers, otherwise runs the loop over a copy of the
current list.  Returns the updated registry and the subscribers that
received the message. -/
def broadcast_status (reg : Registry) (docId : Nat) : Registry × List Sub :=
  if reg docId = [] then (reg, []) else broadcastLoop docId reg (reg docId) []

lemma broadcastLoop_delivered (docId : Nat) (p : List Sub) :
    ∀ (reg : Registry) (acc : List Sub),
      (broadcastLoop docId reg p acc).2
        = acc ++ p.filter (fun ws => ws.outcome == SendOutcome.ok) := by
  induction p with
  | nil => intro reg acc; simp [broadcastLoop]
  | cons ws rest ih =>
    intro reg acc
    cases hws : ws.outcome with
    | ok => simp [broadcastLoop, hws, ih]
    | disconnected => simp [broadcastLoop, hws, ih]
    | failed => simp [broadcastLoop, hws, ih]

lemma broadcastLoop_reg_self (docId : Nat) (p : List Sub) :
    ∀ (reg : Registry) (acc : List Sub),
      (broadcastLoop docId reg p acc).1 docId
        = List.foldl List.erase (reg docId)
            (p.filter (fun ws => ws.outcome == SendOutcome.disconnected)) := by
  induction p with
  | nil => intro reg acc; simp [broadcastLoop]
  | cons ws rest ih =>
    intro reg acc
    cases hws : ws.outcome with
    | ok => simp [broadcastLoop, hws, ih]
    | disconnected =>
      simp only [broadcastLoop, hws, ih, List.filter_cons]
      simp [remove_websocket_connection]
    | failed => simp [broadcastLoop, hws, ih]

lemma broadcastLoop_reg_other (docId k : Nat) (hk : k ≠ docId) (p : List Sub) :
    ∀ (reg : Registry) (acc : List Sub),
      (broadcastLoop docId reg p acc).1 k = reg k := by
  induction p with
  | nil => intro reg acc; simp [broadcastLoop]
  | cons ws rest ih =>
    intro reg acc
    cases hws : ws.outcome with
    | ok => simp [broadcastLoop, hws, ih]
    | disconnected =>
      simp only [broadcastLoop, hws, ih]
      simp [remove_websocket_connection, hk]
    | failed => simp [broadcastLoop, hws, ih]

lemma diff_filter_of_nodup (conns : List Sub) (hnd : conns.Nodup) :
    conns.diff (conns.filter (fun ws => ws.outcome == SendOutcome.disconnected))
      = conns.filter (fun ws => !(ws.outcome == SendOutcome.disconnected)) := by
  rw [List.Nodup.diff_eq_filter hnd]
  apply List.filter_congr
  intro x hx
  simp only [List.mem_filter, hx, true_and]
  cases hxo : x.outcome <;> simp [hxo]

/-- C8: publishing a status event to a source's subscribers delivers to
every subscriber whose transport accepts the message regardless of failures
of the others, never propagates a failure to the publisher (every branch of
the loop catches the exception and continues), prunes exactly the
subscribers whose transport disconnected from the registry, and leaves every
other source's subscriber list untouched. -/
theorem C8_broadcast_fault_isolation (reg : Registry) (docId : Nat)
    (conns : List Sub) (h : reg docId = conns) (hnd : conns.Nodup) :
    (broadcast_status reg docId).2
        = conns.filter (fun ws => ws.outcome == SendOutcome.ok) ∧
      (broadcast_status reg docId).1 docId
        = conns.filter (fun ws => !(ws.outcome == SendOutcome.disconnected)) ∧
      ∀ k, k ≠ docId → (broadcast_status reg docId).1 k = reg k := by
  by_cases hc : conns = []
  · subst hc
    simp [broadcast_status, h]
  · unfold broadcast_status
    rw [h]
    simp only [hc, if_false]
    refine ⟨?_, ?_, ?_⟩
    · rw [broadcastLoop_delivered]
      simp
    · rw [broadcastLoop_reg_self, h, ← List.diff_eq_foldl,
        diff_filter_of_nodup conns hnd]
    · intro k hk
      exact broadcastLoop_reg_other docId k hk conns reg []

/-- A live subscriber. -/
def C8sub1 : Sub := { sid := 1, outcome := SendOutcome.ok }

/-- A subscriber whose transport has disconnected. -/
def C8sub2 : Sub := { sid := 2, outcome := SendOutcome.disconnected }

/-- A second live subscriber, listed after the dead one. -/
def C8sub3 : Sub := { sid := 3, outcome := SendOutcome.ok }

/-- A registry with three subscribers for source 7 and none elsewhere. -/
def C8reg : Registry := fun k => if k = 7 then [C8sub1, C8sub2, C8sub3] else []

/-- Witness for C8 at a concrete registry: the subscriber after the dead
one still receives the event, the dead one is pruned, and other sources are
untouched. -/
theorem C8_broadcast_witness :
    (broadcast_status C8reg 7).2
        = [C8sub1, C8sub2, C8sub3].filter (fun ws => ws.outcome == SendOutcome.ok) ∧
      (broadcast_status C8reg 7).1 7
        = [C8sub1, C8sub2, C8sub3].filter
            (fun ws => !(ws.outcome == SendOutcome.disconnected)) ∧
      ∀ k, k ≠ 7 → (broadcast_status C8reg 7).1 k = C8reg k :=
  C8_broadcast_fault_isolation C8reg 7 [C8sub1, C8sub2, C8sub3] rfl (by decide)

/-! ### Vector store indexing (rag_handler.add_document_to_vector_store) -/

/-- One indexed chunk: the owning source id (stored in the chunk metadata
as `str(doc_id)`; the str/int round trip is exact, so it is modelled as the
number itself) and the chunk text. -/
structure Chunk where
  sourceDocId : Nat
  content : List Char
deriving DecidableEq, Repr

/-- The chunks produced for one document: the split text tagged with the
source id. -/
def mkChunks (docId s o : Nat) (text : List Char) : List Chunk :=
  (chunkText s o text).map fun c => { sourceDocId := docId, content := c }

/-- rag_handler.add_document_to_vector_store: raises when the processed
file is missing, adds nothing for whitespace-only text, and otherwise
splits the text and APPENDS the resulting chunks to the store
(`vector_store.add_documents`); nothing deletes previously indexed chunks
for the same id.  `content` is the processed file's text, `none` when the
file does not exist; `s`, `o` are settings.rag.chunk_size and
settings.rag.chunk_overlap. -/
def add_document_to_vector_store (store : List Chunk) (content : Option (List Char))
    (docId s o : Nat) : Except String (List Chunk) :=
  match content with
  | none => Except.error "Processed text file not found"
  | some text =>
    if text.all Char.isWhitespace then Except.ok store
    else Except.ok (store ++ mkChunks docId s o text)

/-- The chunk set produced by one indexing run of the C6 counterexample. -/
def C6chunks : List Chunk := mkChunks 7 3 1 "abcdef".toList

/-- C6 counterexample: indexing the same source twice appends its chunk set
twice — the second run yields the first store followed by a second copy of
the same chunks, instead of replacing them, so two admissions of one source
id do not result in exactly one indexed chunk set. -/
theorem C6_counterexample :
    add_document_to_vector_store [] (some "abcdef".toList) 7 3 1 = Except.ok C6chunks ∧
      add_document_to_vector_store C6chunks (some "abcdef".toList) 7 3 1
        = Except.ok (C6chunks ++ C6chunks) ∧
      C6chunks ≠ [] ∧
      ((C6chunks ++ C6chunks).filter (fun c => c.sourceDocId == 7)).length
        = 2 * (C6chunks.filter (fun c => c.sourceDocId == 7)).length := by
  refine ⟨rfl, rfl, by decide, by decide⟩

/-- C6 amended: nothing rejects or deduplicates a repeated admission of the
same source id — both runs execute, and each run appends the source's chunk
set to the store again, so a re-run appends rather than replaces. -/
theorem C6_amended_reindex_appends (store : List Chunk) (text : List Char)
    (docId s o : Nat) (h : text.all Char.isWhitespace = false) :
    add_document_to_vector_store store (some text) docId s o
        = Except.ok (store ++ mkChunks docId s o text) ∧
      add_document_to_vector_store (store ++ mkChunks docId s o text) (some text) docId s o
        = Except.ok (store ++ mkChunks docId s o text ++ mkChunks docId s o text) := by
  constructor <;> simp [add_document_to_vector_store, h]

/-- Witness for C6 amended at a concrete input. -/
theorem C6_amended_witness :
    add_document_to_vector_store [] (some "abcdef".toList) 7 3 1
        = Except.ok ([] ++ mkChunks 7 3 1 "abcdef".toList) ∧
      add_document_to_vector_store ([] ++ mkChunks 7 3 1 "abcdef".toList)
          (some "abcdef".toList) 7 3 1
        = Except.ok ([] ++ mkChunks 7 3 1 "abcdef".toList ++ mkChunks 7 3 1 "abcdef".toList) :=
  C6_amended_reindex_appends [] "abcdef".toList 7 3 1 (by decide)

/-! ### Query endpoint (main.query_chat_session, crud.get_documents_by_ids,
rag_handler.setup_rag_chain / query_rag) -/

/-- Role of a persisted chat message (constants.ChatMessageRole). -/
inductive ChatRole
  | user
  | assistant
  | system
deriving DecidableEq, Repr

/-- crud.get_documents_by_ids: the rows whose id is in the list
(`Document.id.in_(doc_ids)`), the empty list for an empty id list; the SQL
result carries each matching row once. -/
def get_documents_by_ids (db : List Document) (ids : List Nat) : List Document :=
  if ids = [] then [] else db.filter fun d => decide (d.id ∈ ids)

/-- The outcome of the /api/query endpoint. -/
inductive QueryResult
  | httpError (code : Nat) (detail : String)
  | answer (text : String) (sources : List Document)
deriving DecidableEq, Repr

/-- main.query_chat_session: looks up the session (404 when absent),
persists the user message, calls rag_handler.query_rag with the requested
`documentIds` as the retrieval filter, and on success reads the source-doc
ids out of the returned chunks' metadata (stored as `str(doc_id)`; the
str/int round trip is exact), fetches those rows and returns them with the
answer.  A RAG failure is a 500 with a system message persisted.  No status
check of any kind is made on the requested document ids.  `rag` is the
outcome of the query_rag call: the generated answer together with the
retrieved top-k chunks. -/
def query_chat_session (sessions : List Nat) (db : List Document)
    (sessionId : Nat) (question : String) (documentIds : List Nat)
    (rag : Except String (String × List Chunk)) :
    QueryResult × List (ChatRole × String) :=
  if sessionId ∈ sessions then
    match rag with
    | Except.error e =>
        (QueryResult.httpError 500 ("Failed to get answer from RAG system: " ++ e),
         [(ChatRole.user, question), (ChatRole.system, "Error retrieving answer: " ++ e)])
    | Except.ok (ans, retrieved) =>
        let usedIds := retrieved.map fun c => c.sourceDocId
        (QueryResult.answer ans (get_documents_by_ids db usedIds),
         [(ChatRole.user, question), (ChatRole.assistant, ans)])
  else
    (QueryResult.httpError 404 ("Chat session " ++ toString sessionId ++ " not found."), [])

/-- A registered source that has never been processed. -/
def C1pendingDoc : Document :=
  { id := 1, filename := "a.txt", original_path := "/data/uploads/a.txt",
    processed_text_path := none, document_type := DocumentType.TXT,
    status := DocumentStatus.PENDING, error_message := none }

/-- C1 counterexample: querying session 5 with the eligible set {1}, where
source 1 is PENDING (so the requested set contains only non-completed ids),
does not fail: the endpoint proceeds to the retrieval/Generator path and
returns the generated answer.  No NotReadyError path exists in the code. -/
theorem C1_counterexample :
    (query_chat_session [5] [C1pendingDoc] 5 "what does the text say?" [1]
        (Except.ok ("the generated answer", []))).1
      = QueryResult.answer "the generated answer" [] := by
  decide

/-- C1 amended: the query endpoint performs no readiness check on the
requested ids.  Whenever the session exists, the ids are handed to the
retrieval filter unchanged regardless of the status of any source, and a
successful RAG call always yields the generated answer — the endpoint's
only failure modes are an unknown session (404) and a RAG failure (500). -/
theorem C1_amended_no_readiness_check (sessions : List Nat) (db : List Document)
    (sessionId : Nat) (question : String) (documentIds : List Nat)
    (ans : String) (retrieved : List Chunk) (hs : sessionId ∈ sessions) :
    query_chat_session sessions db sessionId question documentIds
        (Except.ok (ans, retrieved))
      = (QueryResult.answer ans
           (get_documents_by_ids db (retrieved.map fun c => c.sourceDocId)),
         [(ChatRole.user, question), (ChatRole.assistant, ans)]) := by
  simp [query_chat_session, hs]

/-- Witness for C1 amended: the PENDING source run of the counterexample. -/
theorem C1_amended_witness :
    query_chat_session [5] [C1pendingDoc] 5 "what does the text say?" [1]
        (Except.ok ("the generated answer", []))
      = (QueryResult.answer "the generated answer"
           (get_documents_by_ids [C1pendingDoc]
             (([] : List Chunk).map fun c => c.sourceDocId)),
         [(ChatRole.user, "what does the text say?"),
          (ChatRole.assistant, "the generated answer")]) :=
  C1_amended_no_readiness_check [5] [C1pendingDoc] 5 "what does the text say?" [1]
    "the generated answer" [] (by decide)

/-- C2: with a non-empty eligible set, under the vector store's filter
contract (every retrieved chunk's source id is in the eligible set — the
Chroma `$in` filter installed by setup_rag_chain), the ingestion invariant
that every indexed chunk's source id has a row, and primary-key uniqueness
of the rows, the attributed source ids of the answer are a subset of the
eligible set, contain no duplicates, and are exactly the ids whose chunks
appeared among the retrieved top-k chunks. -/
theorem C2_attribution_subset_and_exact (sessions : List Nat) (db : List Document)
    (sessionId : Nat) (question : String) (eligible : List Nat)
    (ans : String) (retrieved : List Chunk)
    (hs : sessionId ∈ sessions)
    (hne : eligible ≠ [])
    (hfilter : ∀ c ∈ retrieved, c.sourceDocId ∈ eligible)
    (hindexed : ∀ c ∈ retrieved, c.sourceDocId ∈ db.map fun d => d.id)
    (hkeys : (db.map fun d => d.id).Nodup) :
    ∃ srcs,
      (query_chat_session sessions db sessionId question eligible
          (Except.ok (ans, retrieved))).1 = QueryResult.answer ans srcs ∧
        (∀ i ∈ srcs.map fun d => d.id, i ∈ eligible) ∧
        (srcs.map fun d => d.id).Nodup ∧
        (∀ i, (i ∈ srcs.map fun d => d.id) ↔ i ∈ retrieved.map fun c => c.sourceDocId) := by
  refine ⟨get_documents_by_ids db (retrieved.map fun c => c.sourceDocId), ?_, ?_, ?_, ?_⟩
  · simp [query_chat_session, hs]
  · intro i hi
    rcases List.eq_nil_or_concat (retrieved.map fun c => c.sourceDocId) with hids | -
    · rw [hids] at hi
      simp [get_documents_by_ids] at hi
    · by_cases hids : (retrieved.map fun c => c.sourceDocId) = []
      · rw [hids] at hi
        simp [get_documents_by_ids] at hi
      · simp only [get_documents_by_ids, hids, if_false, List.mem_map,
          List.mem_filter] at hi
        obtain ⟨d, ⟨-, hdin⟩, hdi⟩ := hi
        rw [decide_eq_true_iff] at hdin
        rw [← hdi]
        obtain ⟨c, hc, hci⟩ := hdin
        exact hci ▸ hfilter c hc
  · by_cases hids : (retrieved.map fun c => c.sourceDocId) = []
    · simp [get_documents_by_ids, hids]
    · simp only [get_documents_by_ids, hids, if_false]
      exact ((List.filter_sublist db).map fun d => d.id).nodup hkeys
  · intro i
    by_cases hids : (retrieved.map fun c => c.sourceDocId) = []
    · simp [get_documents_by_ids, hids]
    · simp only [get_documents_by_ids, hids, if_false]
      constructor
      · intro hi
        simp only [List.mem_map, List.mem_filter] at hi
        obtain ⟨d, ⟨-, hdin⟩, hdi⟩ := hi
        rw [decide_eq_true_iff] at hdin
        exact hdi ▸ List.mem_map.mpr hdin
      · intro hi
        obtain ⟨c, hc, hci⟩ := List.mem_map.mp hi
        have hdb := hindexed c hc
        obtain ⟨d, hd, hdi⟩ := List.mem_map.mp hdb
        refine List.mem_map.mpr ⟨d, List.mem_filter.mpr ⟨hd, ?_⟩, by rw [hdi, hci]⟩
        rw [decide_eq_true_iff, hdi, hci]
        exact hi

/-- A completed source row for the C2 witness. -/
def C2docA : Document :=
  { id := 1, filename := "a.txt", original_path := "/data/uploads/a.txt",
    processed_text_path := some "/data/processed/a.txt",
    document_type := DocumentType.TXT, status := DocumentStatus.COMPLETED,
    error_message := none }

/-- A second completed source row, not in the eligible set. -/
def C2docB : Document :=
  { id := 2, filename := "b.txt", original_path := "/data/uploads/b.txt",
    processed_text_path := some "/data/processed/b.txt",
    document_type := DocumentType.TXT, status := DocumentStatus.COMPLETED,
    error_message := none }

/-- A retrieved chunk of source 1. -/
def C2chunk : Chunk := { sourceDocId := 1, content := "hello world".toList }

/-- Witness for C2 at a concrete query. -/
theorem C2_attribution_witness :
    ∃ srcs,
      (query_chat_session [9] [C2docA, C2docB] 9 "what does the text say?" [1]
          (Except.ok ("it says hello", [C2chunk]))).1
          = QueryResult.answer "it says hello" srcs ∧
        (∀ i ∈ srcs.map fun d => d.id, i ∈ [1]) ∧
        (srcs.map fun d => d.id).Nodup ∧
        (∀ i, (i ∈ srcs.map fun d => d.id) ↔ i ∈ [C2chunk].map fun c => c.sourceDocId) :=
  C2_attribution_subset_and_exact [9] [C2docA, C2docB] 9 "what does the text say?" [1]
    "it says hello" [C2chunk] (by decide) (by decide) (by decide) (by decide) (by decide)

/-! ### Artifact download (main.download_file) -/

/-- Lexical resolution of `.` and `..` segments while appending the
requested segments to an absolute base directory, modelling
`(base_path / filename).resolve()` (symlinks are not modelled). -/
def pyResolve : List (List Char) → List (List Char) → List (List Char)
  | acc, [] => acc
  | acc, c :: rest =>
    if c = ".".toList then pyResolve acc rest
    else if c = "..".toList then pyResolve acc.dropLast rest
    else pyResolve (acc ++ [c]) rest

/-- Render an absolute path from its components, as `str(Path)` does. -/
def renderPath (p : List (List Char)) : List Char :=
  p.foldl (fun acc c => acc ++ '/' :: c) []

/-- Python's `str.startswith`. -/
def strStartsWith (s pre : List Char) : Bool :=
  s.take pre.length == pre

/-- main.download_file's security check: resolve the requested filename
under the export directory and serve the file iff
`str(resolved_path).startswith(str(base_resolved))`. -/
def download_path_check (base fileParts : List (List Char)) : Bool :=
  strStartsWith (renderPath (pyResolve base fileParts)) (renderPath base)

/-- The property the spec demands: the resolved path lies inside the base
directory, i.e. the base's components are an initial run of the resolved
path's components. -/
def resolved_inside (base fileParts : List (List Char)) : Bool :=
  (pyResolve base fileParts).take base.length == base

/-- The export directory /data/audio_exports. -/
def C9base : List (List Char) := ["data".toList, "audio_exports".toList]

/-- A requested filename escaping into the sibling directory
/data/audio_exports_evil via `..`. -/
def C9fileParts : List (List Char) :=
  ["..".toList, "audio_exports_evil".toList, "x.mp3".toList]

/-- C9: the startswith string comparison admits a path that escapes the
export directory: /data/audio_exports_evil/x.mp3 resolves outside
/data/audio_exports, yet str(resolved).startswith(str(base)) holds because
the sibling directory's name extends the base's name, so download_file
serves the file instead of rejecting it. -/
theorem C9_startswith_check_escapes_base :
    download_path_check C9base C9fileParts = true ∧
      resolved_inside C9base C9fileParts = false := by
  decide

/-! ### Upload endpoint (main.upload_file, file_processor.get_document_type) -/

/-- The extension fallback chain of file_processor.get_document_type. -/
def extFallback (ext : String) : DocumentType :=
  if ext = ".pdf" then DocumentType.PDF
  else if ext = ".docx" then DocumentType.DOCX
  else if ext = ".epub" then DocumentType.EPUB
  else if ext = ".txt" then DocumentType.TXT
  else if ext = ".mp3" then DocumentType.MP3
  else if ext = ".wav" then DocumentType.WAV
  else if ext = ".mp4" then DocumentType.MP4
  else if ext = ".mov" then DocumentType.MOV
  else if ext = ".png" then DocumentType.PNG
  else if ext = ".jpg" ∨ ext = ".jpeg" then DocumentType.JPG
  else DocumentType.UNKNOWN

/-- file_processor.get_document_type: decide the document type from the
guessed mimetype (`mime`, the collaborator mimetypes.guess_type result),
falling through to the lowercased extension when the mimetype is absent or
not specific; the audio/video/image families return UNKNOWN for unlisted
subtypes instead of falling through. -/
def get_document_type (mime : Option String) (ext : String) : DocumentType :=
  match mime with
  | none => extFallback ext
  | some m =>
    if m = "application/pdf" then DocumentType.PDF
    else if m = "application/vnd.openxmlformats-officedocument.wordprocessingml.document" then
      DocumentType.DOCX
    else if m = "application/epub+zip" then DocumentType.EPUB
    else if m.startsWith "text/" then DocumentType.TXT
    else if m.startsWith "audio/" then
      (if m = "audio/mpeg" then DocumentType.MP3
       else if m = "audio/wav" ∨ m = "audio/x-wav" then DocumentType.WAV
       else DocumentType.UNKNOWN)
    else if m.startsWith "video/" then
      (if m = "video/mp4" then DocumentType.MP4
       else if m = "video/quicktime" then DocumentType.MOV
       else DocumentType.UNKNOWN)
    else if m.startsWith "image/" then
      (if m = "image/png" then DocumentType.PNG
       else if m = "image/jpeg" then DocumentType.JPG
       else DocumentType.UNKNOWN)
    else extFallback ext

/-- The outcome of the /upload endpoint. -/
inductive UploadOutcome
  | httpError (code : Nat) (detail : String)
  | accepted (doc : Document)
deriving DecidableEq, Repr

/-- The state the upload endpoint touches: the files present in the uploads
directory and the documents table. -/
structure UploadState where
  files : List String
  docs : List Document
deriving DecidableEq, Repr

/-- main.upload_file: rejects an empty filename, saves the upload under its
generated unique name, determines the document type, and — when the type is
UNKNOWN — unlinks the saved file and fails with 400 before any record is
created; otherwise creates the PENDING record (crud.create_document) and
schedules processing.  `uniqueName` is the uuid-based name the endpoint
generates, `mime`/`ext` feed get_document_type, `newId` is the id the
database assigns. -/
def upload_file (st : UploadState) (filename uniqueName : String)
    (mime : Option String) (ext : String) (newId : Nat) :
    UploadOutcome × UploadState :=
  if filename = "" then (UploadOutcome.httpError 400 "No filename provided.", st)
  else
    let savedFiles := st.files ++ [uniqueName]
    let dt := get_document_type mime ext
    if dt = DocumentType.UNKNOWN then
      (UploadOutcome.httpError 400 ("Unsupported file type: " ++ ext),
       { st with files := savedFiles.erase uniqueName })
    else
      let newDoc : Document :=
        { id := newId, filename := filename, original_path := uniqueName,
          processed_text_path := none, document_type := dt,
          status := DocumentStatus.PENDING, error_message := none }
      (UploadOutcome.accepted newDoc,
       { files := savedFiles, docs := st.docs ++ [newDoc] })

/-- C10: when the uploaded file's type resolves to UNKNOWN, the upload
fails with HTTP 400, the saved upload file is removed from disk, and no
document record is created — the state is exactly what it was before the
call. -/
theorem C10_unknown_type_upload_atomic (st : UploadState)
    (filename uniqueName : String) (mime : Option String) (ext : String)
    (newId : Nat) (hf : filename ≠ "") (hu : uniqueName ∉ st.files)
    (hdt : get_document_type mime ext = DocumentType.UNKNOWN) :
    upload_file st filename uniqueName mime ext newId
      = (UploadOutcome.httpError 400 ("Unsupported file type: " ++ ext), st) := by
  simp [upload_file, hf, hdt, List.erase_append_right _ hu]

/-- Upload state for the C10 witness: one unrelated file, no documents. -/
def C10state : UploadState := { files := ["existing.txt"], docs := [] }

/-- Witness for C10 at a concrete input: an unsupported `.xyz` upload. -/
theorem C10_unknown_type_witness :
    upload_file C10state "weird.xyz" "uuid0_weird.xyz" none ".xyz" 5
      = (UploadOutcome.httpError 400 ("Unsupported file type: " ++ ".xyz"), C10state) :=
  C10_unknown_type_upload_atomic C10state "weird.xyz" "uuid0_weird.xyz" none ".xyz" 5
    (by decide) (by decide) (by decide)

end BibleLM
